import Mathlib

/-!
Shallow embedding of the `lm75` temperature-sensor driver (`eldruin/lm75-rs`).

Machine integers are modelled as `Nat` (unsigned) and `Int` (signed), with
explicit `% 2^w` where the Rust code truncates or wraps.  The driver's `f32`
temperatures are modelled as `ℚ`: every value the conversion layer manipulates
is an integer multiple of 0.125 with magnitude below 2^13, and on such values
every `f32` operation the code performs (cast from `i8`/`u8`, multiplication
and division by the exact constant 0.125, addition of an integer part and a
fractional part) is exact in IEEE binary32, so the rational model coincides
with the floating-point computation.  Rust's saturating, truncating
float-to-integer `as` cast is modelled explicitly.

The I²C bus (`embedded-hal` `Write`/`WriteRead`) is modelled as a function
from device address and written bytes to `Except ε Unit`; driver operations
return their result together with the list of bus transactions they issued,
and state-mutating operations also return the updated driver state.
-/

set_option maxRecDepth 8192

namespace Lm75Spec

/-- Rust `b as i8` for a byte `b`: reinterpret the low 8 bits as two's
complement. -/
def u8_as_i8 (b : Nat) : Int :=
  if b % 256 < 128 then ((b % 256 : Nat) : Int) else ((b % 256 : Nat) : Int) - 256

/-- Truncation of a rational toward zero (`Int` division of numerator by
denominator truncates toward zero). -/
def ratTowardZero (q : ℚ) : Int := q.num / (q.den : Int)

/-- Rust `q as i16` on a float value `q`: truncate toward zero, saturating at
the `i16` bounds. -/
def f32_as_i16 (q : ℚ) : Int :=
  if ratTowardZero q < -32768 then -32768
  else if 32767 < ratTowardZero q then 32767
  else ratTowardZero q

/- `src/markers.rs`, `struct BitMasks` (lines 3-8), constants as committed. -/
namespace BitMasks

/-- `const SAMPLE_RATE_MASK: u8 = 0b0001_1111;` -/
def SAMPLE_RATE_MASK : Nat := 0b00011111

/-- `const RESOLUTION_9BIT: u16 = 0b11111111_100000000;` — note the literal
has 17 binary digits (value 130816 = 0x1FF00), which does not fit in `u16`. -/
def RESOLUTION_9BIT : Nat := 0b11111111100000000

end BitMasks

/-- Modelled from the spec: a usable 9-bit resolution mask.  `markers.rs`
declares `RESOLUTION_9BIT: u16 = 0b11111111_100000000`, a 17-bit literal that
overflows the declared `u16` type (the crate's own tests in `conversion.rs`
require the mask's low byte to keep bit 7).  Per spec §4.2 and the glossary,
9-bit resolution keeps the top 1 fractional bit of the low register byte
(0.5 °C steps), i.e. mask `0b11111111_1000_0000`. -/
def RESOLUTION_9BIT_spec : Nat := 0b1111111110000000

/-- Modelled from the spec: the 11-bit resolution mask.  The constant is
referenced by the crate's tests but absent from `src/markers.rs`.  Per spec
§4.2 and the glossary, 11-bit resolution keeps the top 3 fractional bits of
the low register byte (0.125 °C steps), i.e. mask `0b11111111_1110_0000`. -/
def RESOLUTION_11BIT_spec : Nat := 0b1111111111100000

/-- `src/conversion.rs` lines 4-9:
```
pub fn convert_temp_from_register(msb: u8, lsb: u8, mask: u16) -> f32 {
    let msb = f32::from(msb as i8);
    let decimal = f32::from((lsb & mask as u8) >> 5) * 0.125;
    msb + decimal
}
``` -/
def convert_temp_from_register (msb lsb : Nat) (mask : Nat) : ℚ :=
  ((u8_as_i8 msb : Int) : ℚ) + (((lsb &&& (mask % 256)) >>> 5 : Nat) : ℚ) * 0.125

/-- Intermediate value of `convert_temp_to_register` (`src/conversion.rs`
lines 12-13): `let int = (temp / 0.125) as i16 as u16; let binary = int << 5;`
— `u16` shift keeps the low 16 bits. -/
def encodeBinary (temp : ℚ) : Nat :=
  (((f32_as_i16 (temp / 0.125)) % 65536).toNat <<< 5) % 65536

/-- `src/conversion.rs` lines 11-17:
```
pub fn convert_temp_to_register(temp: f32, mask: u16) -> (u8, u8) {
    let int = (temp / 0.125) as i16 as u16;
    let binary = int << 5;
    let msb = (binary >> 8) as u8;
    let lsb = (binary & mask) as u8;
    (msb, lsb)
}
``` -/
def convert_temp_to_register (temp : ℚ) (mask : Nat) : Nat × Nat :=
  ((encodeBinary temp >>> 8) % 256, (encodeBinary temp &&& mask) % 256)

/-- `src/conversion.rs` lines 19-22: `u16::from(byte & BitMasks::SAMPLE_RATE_MASK) * 100`. -/
def convert_sample_rate_from_register (byte : Nat) : Nat :=
  (byte &&& BitMasks.SAMPLE_RATE_MASK) * 100

/-- `src/conversion.rs` lines 24-27: `(period / 100) as u8`. -/
def convert_sample_rate_to_register (period : Nat) : Nat :=
  (period / 100) % 256

/-- Truncation toward zero of an integer rational is that integer. -/
lemma ratTowardZero_intCast (k : ℤ) : ratTowardZero (k : ℚ) = k := by
  simp [ratTowardZero]

/-- The saturating `f32 -> i16` cast is the identity on in-range integers. -/
lemma f32_as_i16_intCast (k : ℤ) (h1 : -32768 ≤ k) (h2 : k ≤ 32767) :
    f32_as_i16 (k : ℚ) = k := by
  simp only [f32_as_i16, ratTowardZero_intCast]
  omega

/-- Evaluation rule for the encoder on a temperature that is an exact multiple
of the 0.125 °C step. -/
lemma convert_temp_to_register_eval (t : ℚ) (k : ℤ) (mask : Nat)
    (h : t / 0.125 = (k : ℚ)) (h1 : -32768 ≤ k) (h2 : k ≤ 32767) :
    convert_temp_to_register t mask =
      (((((k % 65536).toNat <<< 5) % 65536) >>> 8) % 256,
       ((((k % 65536).toNat <<< 5) % 65536) &&& mask) % 256) := by
  simp only [convert_temp_to_register, encodeBinary, h, f32_as_i16_intCast k h1 h2]


/-- `src/lib.rs`: `pub enum Error<E> { I2C(E), InvalidInputData }`. -/
inductive Error (ε : Type) : Type
  | I2C : ε → Error ε
  | InvalidInputData : Error ε
deriving DecidableEq

/-- `src/markers.rs` lines 19-25, `check_period_is_appropriate` of the
`SampleRateSupport` impl for `ic::Pct2075`:
`if period > 3100 || period % 100 != 0 { Err(Error::InvalidInputData) } else { Ok(()) }`. -/
def check_period_is_appropriate (ε : Type) (period : Nat) : Except (Error ε) Unit :=
  if 3100 < period ∨ period % 100 ≠ 0 then Except.error Error.InvalidInputData
  else Except.ok ()

/-- `src/lib.rs`: `pub enum SlaveAddr { Default, Alternative(bool, bool, bool) }`. -/
inductive SlaveAddr : Type
  | Default : SlaveAddr
  | Alternative : Bool → Bool → Bool → SlaveAddr
deriving DecidableEq

/-- `src/lib.rs` lines 230-240:
```
fn addr(self, default: u8) -> u8 {
    match self {
        SlaveAddr::Default => default,
        SlaveAddr::Alternative(a2, a1, a0) => default | ((a2 as u8) << 2) |
                                              ((a1 as u8) << 1) | a0 as u8
    }
}
``` -/
def SlaveAddr.addr : SlaveAddr → Nat → Nat
  | SlaveAddr.Default, default => default
  | SlaveAddr.Alternative a2 a1 a0, default =>
      default ||| ((cond a2 1 0) <<< 2) ||| ((cond a1 1 0) <<< 1) ||| (cond a0 1 0)

/-- `src/lib.rs`: `const DEVICE_BASE_ADDRESS: u8 = 0b100_1000;`. -/
def DEVICE_BASE_ADDRESS : Nat := 0b1001000

/- Register addresses (`src/lib.rs` and `src/device_impl.rs`, `struct Register`). -/
namespace Register

/-- `const TEMPERATURE: u8 = 0x00;` -/
def TEMPERATURE : Nat := 0x00

/-- `const CONFIGURATION: u8 = 0x01;` -/
def CONFIGURATION : Nat := 0x01

/-- `const T_HYST: u8 = 0x02;` -/
def T_HYST : Nat := 0x02

/-- `const T_OS: u8 = 0x03;` -/
def T_OS : Nat := 0x03

/-- `const T_IDLE: u8 = 0x04;` (`device_impl.rs` only) -/
def T_IDLE : Nat := 0x04

end Register

/- Configuration bit masks (`struct BitFlags` in `src/lib.rs` /
`src/device_impl.rs`). -/
namespace BitFlags

/-- `const SHUTDOWN: u8 = 0b0000_0001;` -/
def SHUTDOWN : Nat := 0b00000001

/-- `const COMP_INT: u8 = 0b0000_0010;` -/
def COMP_INT : Nat := 0b00000010

/-- `const OS_POLARITY: u8 = 0b0000_0100;` -/
def OS_POLARITY : Nat := 0b00000100

/-- `const FAULT_QUEUE0: u8 = 0b0000_1000;` -/
def FAULT_QUEUE0 : Nat := 0b00001000

/-- `const FAULT_QUEUE1: u8 = 0b0001_0000;` -/
def FAULT_QUEUE1 : Nat := 0b00010000

end BitFlags

/-- `src/lib.rs`: `pub enum FaultQueue { _1, _2, _4, _6 }`. -/
inductive FaultQueue : Type
  | q1 : FaultQueue
  | q2 : FaultQueue
  | q4 : FaultQueue
  | q6 : FaultQueue
deriving DecidableEq

/-- `src/lib.rs`: `pub enum OsPolarity { ActiveLow, ActiveHigh }`. -/
inductive OsPolarity : Type
  | ActiveLow : OsPolarity
  | ActiveHigh : OsPolarity
deriving DecidableEq

/-- `src/lib.rs`: `pub enum OsMode { Comparator, Interrupt }`. -/
inductive OsMode : Type
  | Comparator : OsMode
  | Interrupt : OsMode
deriving DecidableEq

/-- `src/lib.rs`: `struct Config { bits: u8 }`. -/
structure Config : Type where
  bits : Nat
deriving DecidableEq

/-- Rust `!mask` on a `u8` value: complement within 8 bits. -/
def u8_not (mask : Nat) : Nat := mask ^^^ 255

/-- `src/lib.rs` lines 303-307: `Config { bits: self.bits | mask }`. -/
def Config.with_high (c : Config) (mask : Nat) : Config :=
  ⟨c.bits ||| mask⟩

/-- `src/lib.rs` lines 308-312: `Config { bits: self.bits & !mask }`. -/
def Config.with_low (c : Config) (mask : Nat) : Config :=
  ⟨c.bits &&& u8_not mask⟩

/-- A bus transaction: device address and the bytes written. -/
structure Tx : Type where
  addr : Nat
  bytes : List Nat
deriving DecidableEq

/-- Driver state: the I²C device address and the cached configuration register
(`struct Lm75` in `src/lib.rs`, `struct Xx75` in the second driver revision);
the owned bus handle is modelled separately as the `bus` function. -/
structure DriverS : Type where
  address : Nat
  config : Config
deriving DecidableEq

/-- Behaviour of the underlying I²C `Write` primitive: given device address
and payload bytes, either succeed or fail with a transport error `ε`. -/
def BusW (ε : Type) : Type := Nat → List Nat → Except ε Unit

/-- `src/lib.rs` lines 417-423 = `src/device_impl.rs` lines 128-134:
```
fn write_config(&mut self, config: Config) -> Result<(), Error<E>> {
    self.i2c.write(self.address, &[Register::CONFIGURATION, config.bits])
        .map_err(Error::I2C)?;
    self.config = config;
    Ok(())
}
```
The `?` returns the error before `self.config` is assigned. -/
def write_config (bus : BusW ε) (s : DriverS) (config : Config) :
    Except (Error ε) Unit × DriverS :=
  match bus s.address [Register.CONFIGURATION, config.bits] with
  | Except.error e => (Except.error (Error.I2C e), s)
  | Except.ok _ => (Except.ok (), { s with config := config })

/-- `enable`: `self.write_config(config.with_low(BitFlags::SHUTDOWN))`. -/
def enable (bus : BusW ε) (s : DriverS) : Except (Error ε) Unit × DriverS :=
  write_config bus s (s.config.with_low BitFlags.SHUTDOWN)

/-- `disable`: `self.write_config(config.with_high(BitFlags::SHUTDOWN))`. -/
def disable (bus : BusW ε) (s : DriverS) : Except (Error ε) Unit × DriverS :=
  write_config bus s (s.config.with_high BitFlags.SHUTDOWN)

/-- `set_fault_queue` (`src/lib.rs` lines 364-372 / `device_impl.rs`). -/
def set_fault_queue (bus : BusW ε) (s : DriverS) (fq : FaultQueue) :
    Except (Error ε) Unit × DriverS :=
  match fq with
  | FaultQueue.q1 =>
      write_config bus s ((s.config.with_low BitFlags.FAULT_QUEUE1).with_low BitFlags.FAULT_QUEUE0)
  | FaultQueue.q2 =>
      write_config bus s ((s.config.with_low BitFlags.FAULT_QUEUE1).with_high BitFlags.FAULT_QUEUE0)
  | FaultQueue.q4 =>
      write_config bus s ((s.config.with_high BitFlags.FAULT_QUEUE1).with_low BitFlags.FAULT_QUEUE0)
  | FaultQueue.q6 =>
      write_config bus s ((s.config.with_high BitFlags.FAULT_QUEUE1).with_high BitFlags.FAULT_QUEUE0)

/-- `set_os_polarity` (`src/lib.rs` lines 375-381 / `device_impl.rs`). -/
def set_os_polarity (bus : BusW ε) (s : DriverS) (polarity : OsPolarity) :
    Except (Error ε) Unit × DriverS :=
  match polarity with
  | OsPolarity.ActiveLow => write_config bus s (s.config.with_low BitFlags.OS_POLARITY)
  | OsPolarity.ActiveHigh => write_config bus s (s.config.with_high BitFlags.OS_POLARITY)

/-- `set_os_mode` (`src/lib.rs` lines 384-390 / `device_impl.rs`). -/
def set_os_mode (bus : BusW ε) (s : DriverS) (mode : OsMode) :
    Except (Error ε) Unit × DriverS :=
  match mode with
  | OsMode.Comparator => write_config bus s (s.config.with_low BitFlags.COMP_INT)
  | OsMode.Interrupt => write_config bus s (s.config.with_high BitFlags.COMP_INT)

/-- Modelled from the spec: `src/lib.rs` and `src/device_impl.rs` call a
single-argument `conversion::convert_temp_to_register(temperature)` that is
absent from `src/conversion.rs` (that file only defines the two-argument
masked encoder).  Per spec §3/§4.2 and the glossary, the base LM75 uses 9-bit
resolution (one fractional bit, 0.5 °C steps), so the missing function is the
masked encoder at the 9-bit mask. -/
def convert_temp_to_register9 (temp : ℚ) : Nat × Nat :=
  convert_temp_to_register temp RESOLUTION_9BIT_spec

/-- `set_os_temperature` (`src/lib.rs` lines 393-401 / `device_impl.rs`
lines 107-115):
```
if temperature < -55.0 || temperature > 125.0 { return Err(Error::InvalidInputData); }
let (msb, lsb) = conversion::convert_temp_to_register(temperature);
self.i2c.write(self.address, &[Register::T_OS, msb, lsb]).map_err(Error::I2C)
```
The result is paired with the list of issued bus transactions. -/
def set_os_temperature (bus : BusW ε) (s : DriverS) (temperature : ℚ) :
    Except (Error ε) Unit × List Tx :=
  if temperature < -55 ∨ 125 < temperature then
    (Except.error Error.InvalidInputData, [])
  else
    match bus s.address [Register.T_OS, (convert_temp_to_register9 temperature).1,
        (convert_temp_to_register9 temperature).2] with
    | Except.error e =>
        (Except.error (Error.I2C e),
         [⟨s.address, [Register.T_OS, (convert_temp_to_register9 temperature).1,
            (convert_temp_to_register9 temperature).2]⟩])
    | Except.ok _ =>
        (Except.ok (),
         [⟨s.address, [Register.T_OS, (convert_temp_to_register9 temperature).1,
            (convert_temp_to_register9 temperature).2]⟩])

/-- `set_hysteresis_temperature` (`src/lib.rs` lines 404-412 /
`device_impl.rs` lines 118-126): same as `set_os_temperature` but writes the
`T_HYST` register. -/
def set_hysteresis_temperature (bus : BusW ε) (s : DriverS) (temperature : ℚ) :
    Except (Error ε) Unit × List Tx :=
  if temperature < -55 ∨ 125 < temperature then
    (Except.error Error.InvalidInputData, [])
  else
    match bus s.address [Register.T_HYST, (convert_temp_to_register9 temperature).1,
        (convert_temp_to_register9 temperature).2] with
    | Except.error e =>
        (Except.error (Error.I2C e),
         [⟨s.address, [Register.T_HYST, (convert_temp_to_register9 temperature).1,
            (convert_temp_to_register9 temperature).2]⟩])
    | Except.ok _ =>
        (Except.ok (),
         [⟨s.address, [Register.T_HYST, (convert_temp_to_register9 temperature).1,
            (convert_temp_to_register9 temperature).2]⟩])

/-- `set_sample_rate` for the PCT2075 variant (`src/device_impl.rs`
lines 152-162):
```
pub fn set_sample_rate(&mut self, byte: u8) -> Result<(), Error<E>> {
    self.i2c.write(self.address, &[Register::T_IDLE, byte]).map_err(Error::I2C)
}
```
It takes a raw register byte and writes it unconditionally. -/
def set_sample_rate (bus : BusW ε) (s : DriverS) (byte : Nat) :
    Except (Error ε) Unit × List Tx :=
  match bus s.address [Register.T_IDLE, byte] with
  | Except.error e => (Except.error (Error.I2C e), [⟨s.address, [Register.T_IDLE, byte]⟩])
  | Except.ok _ => (Except.ok (), [⟨s.address, [Register.T_IDLE, byte]⟩])

/-- The `i8` reinterpretation of a byte lies in `[-128, 127]`. -/
lemma u8_as_i8_bounds (b : Nat) : -128 ≤ u8_as_i8 b ∧ u8_as_i8 b < 128 := by
  have h : b % 256 < 256 := Nat.mod_lt _ (by omega)
  unfold u8_as_i8
  split <;> omega

/-- On an actual byte the `i8` reinterpretation needs no reduction. -/
lemma u8_as_i8_eq (b : Nat) (hb : b < 256) :
    u8_as_i8 b = if b < 128 then (b : Int) else (b : Int) - 256 := by
  unfold u8_as_i8
  rw [Nat.mod_eq_of_lt hb]

/-- Truncating a bitwise `and` to a byte distributes over both operands. -/
lemma and_mod_256 (a b : Nat) : (a &&& b) % 256 = (a % 256) &&& (b % 256) := by
  apply Nat.eq_of_testBit_eq
  intro i
  rw [show (256 : Nat) = 2 ^ 8 from rfl]
  simp only [Nat.testBit_mod_two_pow, Nat.testBit_and]
  by_cases h : i < 8 <;> simp [h]

/-- Bit view of the byte complement used by `with_low`. -/
lemma u8_not_testBit (m i : Nat) (hm : m < 256) :
    (u8_not m).testBit i = (decide (i < 8) && !(m.testBit i)) := by
  unfold u8_not
  rw [show (255 : Nat) = 2 ^ 8 - 1 from rfl, Nat.testBit_xor, Nat.testBit_two_pow_sub_one]
  by_cases h : i < 8
  · simp [h]
  · have h8 : (2 : Nat) ^ 8 ≤ 2 ^ i := Nat.pow_le_pow_right (by omega) (by omega)
    have hmb : m.testBit i = false := Nat.testBit_lt_two_pow (by omega)
    simp [h, hmb]

/-- Bit view of `with_high`. -/
lemma with_high_testBit (c : Config) (m i : Nat) :
    ((c.with_high m).bits.testBit i) = (c.bits.testBit i || m.testBit i) := by
  simp [Config.with_high, Nat.testBit_or]

/-- Bit view of `with_low` (for byte masks). -/
lemma with_low_testBit (c : Config) (m i : Nat) (hm : m < 256) :
    ((c.with_low m).bits.testBit i) =
      (c.bits.testBit i && (decide (i < 8) && !(m.testBit i))) := by
  simp [Config.with_low, Nat.testBit_and, u8_not_testBit m i hm]

/-- `write_config` leaves the cached configuration either unchanged (bus
error) or equal to the value it wrote (bus success). -/
lemma write_config_cases (bus : BusW ε) (s : DriverS) (c : Config) :
    (write_config bus s c).2.config = s.config ∨ (write_config bus s c).2.config = c := by
  unfold write_config
  cases bus s.address [Register.CONFIGURATION, c.bits] <;> simp

/-- If the written configuration agrees with the cached one on bit `i`, so
does the post-state configuration, whatever the bus does. -/
lemma write_config_preserves_bit (bus : BusW ε) (s : DriverS) (c : Config) (i : Nat)
    (h : c.bits.testBit i = s.config.bits.testBit i) :
    (write_config bus s c).2.config.bits.testBit i = s.config.bits.testBit i := by
  rcases write_config_cases bus s c with hc | hc <;> rw [hc]
  exact h

/-- C8: address resolution computes `base | (a2<<2) | (a1<<1) | a0` for every
pin-strap triple; base `0b100_1000` with pins `(true,true,true)` resolves to
`0b100_1111`; pins `(false,false,false)` and the `Default` sentinel leave the
base address unchanged. -/
theorem claim_C8_address_resolution :
    (∀ (a2 a1 a0 : Bool) (base : Nat),
      (SlaveAddr.Alternative a2 a1 a0).addr base =
        base ||| ((cond a2 1 0) <<< 2) ||| ((cond a1 1 0) <<< 1) ||| (cond a0 1 0)) ∧
    (SlaveAddr.Alternative true true true).addr DEVICE_BASE_ADDRESS = 0b1001111 ∧
    (∀ base : Nat, (SlaveAddr.Alternative false false false).addr base = base) ∧
    (∀ base : Nat, SlaveAddr.Default.addr base = base) := by
  refine ⟨fun a2 a1 a0 base => rfl, by decide, fun base => ?_, fun base => rfl⟩
  simp [SlaveAddr.addr, Nat.zero_shiftLeft, Nat.or_zero]

/-- C10: for every register byte, decoding the sample rate and re-encoding it
reproduces exactly the low 5-bit field `b &&& 0b0001_1111`, and decoding
discards the high 3 bits of the byte. -/
theorem claim_C10_sample_rate_roundtrip :
    ∀ b : Nat, b < 256 →
      convert_sample_rate_to_register (convert_sample_rate_from_register b) = b &&& 0b00011111 ∧
      convert_sample_rate_from_register b = convert_sample_rate_from_register (b &&& 0b00011111) := by
  decide

/-- C10 witness: the round-trip at the concrete register byte `0b1110_0111`. -/
theorem claim_C10_witness :
    (0b11100111 : Nat) < 256 ∧
    (convert_sample_rate_to_register (convert_sample_rate_from_register 0b11100111) =
        0b11100111 &&& 0b00011111 ∧
      convert_sample_rate_from_register 0b11100111 =
        convert_sample_rate_from_register (0b11100111 &&& 0b00011111)) :=
  ⟨by decide, claim_C10_sample_rate_roundtrip 0b11100111 (by decide)⟩

/-- C2 (code-bug evidence): `markers.rs` commits
`RESOLUTION_9BIT: u16 = 0b11111111_100000000`, a 17-bit literal of value
130816 that does not fit the declared `u16` type.  Reduced to 16 bits its low
byte is `0`, so the 9-bit decode of `(0b0000_0000, 0b1101_1010)` yields `0`
instead of the `0.5` that the claim — and the crate's own test
`can_convert_temperature_from_register` in `conversion.rs` — requires.  The
claim's other two decode values hold even under the truncated constant, and
all three hold under the spec-modelled 9-bit mask `0b11111111_1000_0000`. -/
theorem claim_C2_nine_bit_decode_values :
    BitMasks.RESOLUTION_9BIT = 130816 ∧
    ¬ BitMasks.RESOLUTION_9BIT < 65536 ∧
    convert_temp_from_register 0 0b11011010 (BitMasks.RESOLUTION_9BIT % 65536) = 0 ∧
    convert_temp_from_register 0b01111101 0b01011010 (BitMasks.RESOLUTION_9BIT % 65536) = 125 ∧
    convert_temp_from_register 0b10000000 0b01011010 (BitMasks.RESOLUTION_9BIT % 65536) = -128 ∧
    convert_temp_from_register 0 0b11011010 RESOLUTION_9BIT_spec = 0.5 ∧
    convert_temp_from_register 0b01111101 0b01011010 RESOLUTION_9BIT_spec = 125 ∧
    convert_temp_from_register 0b10000000 0b01011010 RESOLUTION_9BIT_spec = -128 := by
  refine ⟨by decide, by decide, ?_, ?_, ?_, ?_, ?_, ?_⟩
  · norm_num [convert_temp_from_register, u8_as_i8, BitMasks.RESOLUTION_9BIT,
      show (218 &&& 0) >>> 5 = 0 from by decide]
  · norm_num [convert_temp_from_register, u8_as_i8, BitMasks.RESOLUTION_9BIT,
      show (90 &&& 0) >>> 5 = 0 from by decide]
  · norm_num [convert_temp_from_register, u8_as_i8, BitMasks.RESOLUTION_9BIT,
      show (90 &&& 0) >>> 5 = 0 from by decide]
  · norm_num [convert_temp_from_register, u8_as_i8, RESOLUTION_9BIT_spec,
      show (218 &&& 128) >>> 5 = 4 from by decide]
  · norm_num [convert_temp_from_register, u8_as_i8, RESOLUTION_9BIT_spec,
      show (90 &&& 128) >>> 5 = 0 from by decide]
  · norm_num [convert_temp_from_register, u8_as_i8, RESOLUTION_9BIT_spec,
      show (90 &&& 128) >>> 5 = 0 from by decide]

/-- C4 counterexample: encoding 0.5 at the 9-bit resolution mask does not
yield the register pair `(0b0000_0000, 1)` — neither under the spec-modelled
9-bit mask (where the lsb is `0b1000_0000`) nor under the committed constant
truncated to `u16` (where the lsb is `0`): the single half-degree fraction bit
sits at bit 7 of the low byte, never at bit 0. -/
theorem claim_C4_counterexample :
    ¬ (convert_temp_to_register 0.5 RESOLUTION_9BIT_spec = (0, 1) ∧
       convert_temp_to_register 0.5 (BitMasks.RESOLUTION_9BIT % 65536) = (0, 1)) := by
  intro h
  have h1 := convert_temp_to_register_eval 0.5 4 RESOLUTION_9BIT_spec
    (by norm_num) (by decide) (by decide)
  rw [h1] at h
  exact absurd h.1 (by decide)

/-- C4 (amended): at the spec-modelled 9-bit mask the encoder maps 0.5 to
`(0b0000_0000, 0b1000_0000)`, -128.0 to `(0b1000_0000, 0b0000_0000)` and
127.5 to `(0b0111_1111, 0b1000_0000)`: the claimed lsb value `1` denotes the
single fraction bit, which the code places at bit 7 of the low byte. -/
theorem claim_C4_encode_values :
    convert_temp_to_register 0.5 RESOLUTION_9BIT_spec = (0, 0b10000000) ∧
    convert_temp_to_register (-128) RESOLUTION_9BIT_spec = (0b10000000, 0) ∧
    convert_temp_to_register 127.5 RESOLUTION_9BIT_spec = (0b01111111, 0b10000000) := by
  refine ⟨?_, ?_, ?_⟩
  · rw [convert_temp_to_register_eval 0.5 4 _ (by norm_num) (by decide) (by decide)]
    decide
  · rw [convert_temp_to_register_eval (-128) (-1024) _ (by norm_num) (by decide) (by decide)]
    decide
  · rw [convert_temp_to_register_eval 127.5 1020 _ (by norm_num) (by decide) (by decide)]
    decide

/-- Case analysis for the `i8` reinterpretation of a byte. -/
lemma u8_as_i8_cases (b : Nat) (hb : b < 256) :
    (b < 128 ∧ u8_as_i8 b = (b : Int)) ∨ (128 ≤ b ∧ u8_as_i8 b = (b : Int) - 256) := by
  rw [u8_as_i8_eq b hb]
  by_cases h : b < 128
  · exact Or.inl ⟨h, if_pos h⟩
  · exact Or.inr ⟨by omega, if_neg h⟩

/-- C3: decoding always yields the two's-complement value of the msb plus a
non-negative fractional offset extracted from the top bits of the lsb; the
msb `0b1111_1111` with exactly the half-degree fraction bit set decodes to
-0.5 (not -1.5); every decoded temperature is at least -128; and -128 is
attained at msb `0b1000_0000` with zero fraction bits. -/
theorem claim_C3_decode_structure :
    (∀ msb lsb mask : Nat,
      convert_temp_from_register msb lsb mask =
        ((u8_as_i8 msb : Int) : ℚ) + (((lsb &&& (mask % 256)) >>> 5 : Nat) : ℚ) * 0.125 ∧
      (0 : ℚ) ≤ (((lsb &&& (mask % 256)) >>> 5 : Nat) : ℚ) * 0.125 ∧
      -128 ≤ convert_temp_from_register msb lsb mask) ∧
    (∀ lsb mask : Nat, (lsb &&& (mask % 256)) >>> 5 = 4 →
      convert_temp_from_register 0b11111111 lsb mask = -0.5) ∧
    (∀ mask : Nat, convert_temp_from_register 0b10000000 0 mask = -128) := by
  refine ⟨fun msb lsb mask => ⟨rfl, ?_, ?_⟩, fun lsb mask h => ?_, fun mask => ?_⟩
  · positivity
  · have hb := (u8_as_i8_bounds msb).1
    have hb' : (-128 : ℚ) ≤ ((u8_as_i8 msb : Int) : ℚ) := by exact_mod_cast hb
    have hf : (0 : ℚ) ≤ (((lsb &&& (mask % 256)) >>> 5 : Nat) : ℚ) * 0.125 := by positivity
    rw [convert_temp_from_register]
    linarith
  · rw [convert_temp_from_register, h]
    norm_num [show u8_as_i8 255 = -1 from by decide]
  · rw [convert_temp_from_register]
    norm_num [show u8_as_i8 128 = -128 from by decide, Nat.zero_and]

/-- C3 witness: at the 9-bit mask, `(0b1111_1111, 0b1000_0000)` decodes to
-0.5 and `(0b1000_0000, 0)` decodes to the minimum -128. -/
theorem claim_C3_witness :
    ((0b10000000 &&& (RESOLUTION_9BIT_spec % 256)) >>> 5 = 4) ∧
    convert_temp_from_register 0b11111111 0b10000000 RESOLUTION_9BIT_spec = -0.5 ∧
    -128 ≤ convert_temp_from_register 0b11111111 0b10000000 RESOLUTION_9BIT_spec ∧
    convert_temp_from_register 0b10000000 0 RESOLUTION_9BIT_spec = -128 :=
  ⟨by decide,
   claim_C3_decode_structure.2.1 0b10000000 RESOLUTION_9BIT_spec (by decide),
   (claim_C3_decode_structure.1 0b11111111 0b10000000 RESOLUTION_9BIT_spec).2.2,
   claim_C3_decode_structure.2.2 RESOLUTION_9BIT_spec⟩

/-- C1: decoding a register pair and re-encoding at the same resolution mask
reproduces the original bytes exactly when every set bit of the lsb lies in
the fraction field the mask keeps (`lsb &&& (mask as u8) = lsb` and no bits
below the 0.125° position, i.e. `lsb % 32 = 0`); lsb bits outside that field
describe fractions not representable at the resolution and are dropped by the
decode, which is the claim's stated exception. -/
theorem claim_C1_roundtrip (msb lsb mask : Nat)
    (hmsb : msb < 256) (hlsb : lsb < 256)
    (hrep : lsb &&& (mask % 256) = lsb) (hstep : lsb % 32 = 0) :
    convert_temp_to_register (convert_temp_from_register msb lsb mask) mask = (msb, lsb) := by
  have hdiv : lsb >>> 5 = lsb / 32 := by rw [Nat.shiftRight_eq_div_pow]
  have hd8 : lsb >>> 5 < 8 := by omega
  have h32d : 32 * (lsb >>> 5) = lsb := by omega
  obtain ⟨m, hm, hmrange⟩ : ∃ m : Int, u8_as_i8 msb = m ∧
      ((msb < 128 ∧ m = (msb : Int)) ∨ (128 ≤ msb ∧ m = (msb : Int) - 256)) := by
    rcases u8_as_i8_cases msb hmsb with ⟨h1, h2⟩ | ⟨h1, h2⟩
    · exact ⟨(msb : Int), h2, Or.inl ⟨h1, rfl⟩⟩
    · exact ⟨(msb : Int) - 256, h2, Or.inr ⟨h1, rfl⟩⟩
  have hk1 : (-32768 : Int) ≤ 8 * m + ((lsb >>> 5 : Nat) : Int) := by
    rcases hmrange with ⟨h1, h2⟩ | ⟨h1, h2⟩ <;> omega
  have hk2 : 8 * m + ((lsb >>> 5 : Nat) : Int) ≤ 32767 := by
    rcases hmrange with ⟨h1, h2⟩ | ⟨h1, h2⟩ <;> omega
  have hdec : convert_temp_from_register msb lsb mask / (0.125 : ℚ)
      = ((8 * m + ((lsb >>> 5 : Nat) : Int) : Int) : ℚ) := by
    simp only [convert_temp_from_register, hrep, hm]
    rw [show (0.125 : ℚ) = 1 / 8 from by norm_num]
    push_cast
    field_simp
    ring
  simp only [convert_temp_to_register, encodeBinary]
  rw [hdec, f32_as_i16_intCast _ hk1 hk2]
  have hn : ((((8 * m + ((lsb >>> 5 : Nat) : Int)) % 65536).toNat : Nat) : Int)
      = (8 * m + ((lsb >>> 5 : Nat) : Int)) % 65536 :=
    Int.toNat_of_nonneg (Int.emod_nonneg _ (by norm_num))
  have hbin : ((((8 * m + ((lsb >>> 5 : Nat) : Int)) % 65536).toNat) <<< 5) % 65536
      = 256 * msb + 32 * (lsb >>> 5) := by
    rw [Nat.shiftLeft_eq, show (2 : Nat) ^ 5 = 32 from rfl]
    rcases hmrange with ⟨h1, h2⟩ | ⟨h1, h2⟩ <;> omega
  rw [hbin]
  simp only [Prod.mk.injEq]
  refine ⟨?_, ?_⟩
  · rw [Nat.shiftRight_eq_div_pow, show (2 : Nat) ^ 8 = 256 from rfl]
    omega
  · rw [and_mod_256, show (256 * msb + 32 * (lsb >>> 5)) % 256 = lsb from by omega]
    exact hrep

/-- C1 witness: the pair `(0b1111_1101, 0b1000_0000)` (i.e. -2.5 °C) round-trips
at the 9-bit mask. -/
theorem claim_C1_witness :
    (0b11111101 : Nat) < 256 ∧ (0b10000000 : Nat) < 256 ∧
    0b10000000 &&& (RESOLUTION_9BIT_spec % 256) = 0b10000000 ∧
    (0b10000000 : Nat) % 32 = 0 ∧
    convert_temp_to_register
      (convert_temp_from_register 0b11111101 0b10000000 RESOLUTION_9BIT_spec)
      RESOLUTION_9BIT_spec = (0b11111101, 0b10000000) :=
  ⟨by decide, by decide, by decide, by decide,
   claim_C1_roundtrip 0b11111101 0b10000000 RESOLUTION_9BIT_spec
     (by decide) (by decide) (by decide) (by decide)⟩

/-- C5: for any temperature outside [-55, 125] both threshold setters return
`InvalidInputData` and issue no bus transaction; for any temperature inside
the range the result is never a validation error (it is `Ok` or the forwarded
bus error). -/
theorem claim_C5_temperature_validation :
    ∀ (ε : Type) (bus : BusW ε) (s : DriverS) (t : ℚ),
      ((t < -55 ∨ 125 < t) →
        set_os_temperature bus s t = (Except.error Error.InvalidInputData, []) ∧
        set_hysteresis_temperature bus s t = (Except.error Error.InvalidInputData, [])) ∧
      (-55 ≤ t → t ≤ 125 →
        ((set_os_temperature bus s t).1 = Except.ok () ∨
          ∃ e, (set_os_temperature bus s t).1 = Except.error (Error.I2C e)) ∧
        ((set_hysteresis_temperature bus s t).1 = Except.ok () ∨
          ∃ e, (set_hysteresis_temperature bus s t).1 = Except.error (Error.I2C e))) := by
  intro ε bus s t
  constructor
  · intro h
    constructor
    · rw [set_os_temperature, if_pos h]
    · rw [set_hysteresis_temperature, if_pos h]
  · intro h1 h2
    have hcond : ¬ (t < -55 ∨ 125 < t) := by
      push_neg
      exact ⟨h1, h2⟩
    constructor
    · rw [set_os_temperature, if_neg hcond]
      cases hbus : bus s.address [Register.T_OS, (convert_temp_to_register9 t).1,
          (convert_temp_to_register9 t).2] with
      | error e => exact Or.inr ⟨e, rfl⟩
      | ok u => exact Or.inl rfl
    · rw [set_hysteresis_temperature, if_neg hcond]
      cases hbus : bus s.address [Register.T_HYST, (convert_temp_to_register9 t).1,
          (convert_temp_to_register9 t).2] with
      | error e => exact Or.inr ⟨e, rfl⟩
      | ok u => exact Or.inl rfl

/-- C5 witness: 125.5 °C is rejected without bus traffic; 25 °C passes
validation (with an always-succeeding bus). -/
theorem claim_C5_witness :
    ((125.5 : ℚ) < -55 ∨ (125 : ℚ) < 125.5) ∧
    (set_os_temperature ((fun _ _ => Except.ok ()) : BusW Unit)
        (DriverS.mk 72 (Config.mk 0)) 125.5 = (Except.error Error.InvalidInputData, []) ∧
      set_hysteresis_temperature ((fun _ _ => Except.ok ()) : BusW Unit)
        (DriverS.mk 72 (Config.mk 0)) 125.5 = (Except.error Error.InvalidInputData, [])) ∧
    (-55 : ℚ) ≤ 25 ∧ (25 : ℚ) ≤ 125 ∧
    (((set_os_temperature ((fun _ _ => Except.ok ()) : BusW Unit)
          (DriverS.mk 72 (Config.mk 0)) 25).1 = Except.ok () ∨
        ∃ e, (set_os_temperature ((fun _ _ => Except.ok ()) : BusW Unit)
          (DriverS.mk 72 (Config.mk 0)) 25).1 = Except.error (Error.I2C e)) ∧
      ((set_hysteresis_temperature ((fun _ _ => Except.ok ()) : BusW Unit)
          (DriverS.mk 72 (Config.mk 0)) 25).1 = Except.ok () ∨
        ∃ e, (set_hysteresis_temperature ((fun _ _ => Except.ok ()) : BusW Unit)
          (DriverS.mk 72 (Config.mk 0)) 25).1 = Except.error (Error.I2C e))) :=
  ⟨Or.inr (by norm_num),
   (claim_C5_temperature_validation Unit (fun _ _ => Except.ok ())
      (DriverS.mk 72 (Config.mk 0)) 125.5).1 (Or.inr (by norm_num)),
   by norm_num, by norm_num,
   (claim_C5_temperature_validation Unit (fun _ _ => Except.ok ())
      (DriverS.mk 72 (Config.mk 0)) 25).2 (by norm_num) (by norm_num)⟩

/-- `write_config` on a bus error keeps the cached configuration. -/
lemma write_config_error_frame (bus : BusW ε) (s : DriverS) (c : Config) (err : Error ε)
    (h : (write_config bus s c).1 = Except.error err) :
    (write_config bus s c).2.config = s.config := by
  unfold write_config at h ⊢
  cases hbus : bus s.address [Register.CONFIGURATION, c.bits] <;> simp [hbus] at h ⊢

/-- `write_config` on bus success commits exactly the written value. -/
lemma write_config_ok_commit (bus : BusW ε) (s : DriverS) (c : Config)
    (h : (write_config bus s c).1 = Except.ok ()) :
    (write_config bus s c).2.config = c := by
  unfold write_config at h ⊢
  cases hbus : bus s.address [Register.CONFIGURATION, c.bits] <;> simp [hbus] at h ⊢

/-- C6: every configuration-writing operation commits the new value to the
cached configuration byte only after the bus write succeeds; if the transport
write fails, the cached configuration is left unchanged. -/
theorem claim_C6_config_commit :
    ∀ (ε : Type) (bus : BusW ε) (s : DriverS) (fq : FaultQueue) (pol : OsPolarity)
      (md : OsMode) (c : Config) (err : Error ε),
      ((write_config bus s c).1 = Except.ok () → (write_config bus s c).2.config = c) ∧
      ((enable bus s).1 = Except.error err → (enable bus s).2.config = s.config) ∧
      ((disable bus s).1 = Except.error err → (disable bus s).2.config = s.config) ∧
      ((set_fault_queue bus s fq).1 = Except.error err →
        (set_fault_queue bus s fq).2.config = s.config) ∧
      ((set_os_polarity bus s pol).1 = Except.error err →
        (set_os_polarity bus s pol).2.config = s.config) ∧
      ((set_os_mode bus s md).1 = Except.error err →
        (set_os_mode bus s md).2.config = s.config) := by
  intro ε bus s fq pol md c err
  refine ⟨write_config_ok_commit bus s c, ?_, ?_, ?_, ?_, ?_⟩
  · exact write_config_error_frame bus s _ err
  · exact write_config_error_frame bus s _ err
  · cases fq <;> exact write_config_error_frame bus s _ err
  · cases pol <;> exact write_config_error_frame bus s _ err
  · cases md <;> exact write_config_error_frame bus s _ err

/-- C6 witness: with an always-failing bus every setter leaves the cached
configuration untouched; with an always-succeeding bus `write_config`
commits the written value. -/
theorem claim_C6_witness :
    ((write_config ((fun _ _ => Except.ok ()) : BusW Unit)
        (DriverS.mk 72 (Config.mk 6)) (Config.mk 5)).1 = Except.ok () ∧
      (write_config ((fun _ _ => Except.ok ()) : BusW Unit)
        (DriverS.mk 72 (Config.mk 6)) (Config.mk 5)).2.config = Config.mk 5) ∧
    ((enable ((fun _ _ => Except.error ()) : BusW Unit)
        (DriverS.mk 72 (Config.mk 6))).1 = Except.error (Error.I2C ()) ∧
      (enable ((fun _ _ => Except.error ()) : BusW Unit)
        (DriverS.mk 72 (Config.mk 6))).2.config = Config.mk 6) ∧
    ((set_fault_queue ((fun _ _ => Except.error ()) : BusW Unit)
        (DriverS.mk 72 (Config.mk 6)) FaultQueue.q4).1 = Except.error (Error.I2C ()) ∧
      (set_fault_queue ((fun _ _ => Except.error ()) : BusW Unit)
        (DriverS.mk 72 (Config.mk 6)) FaultQueue.q4).2.config = Config.mk 6) ∧
    ((set_os_polarity ((fun _ _ => Except.error ()) : BusW Unit)
        (DriverS.mk 72 (Config.mk 6)) OsPolarity.ActiveHigh).1 = Except.error (Error.I2C ()) ∧
      (set_os_polarity ((fun _ _ => Except.error ()) : BusW Unit)
        (DriverS.mk 72 (Config.mk 6)) OsPolarity.ActiveHigh).2.config = Config.mk 6) ∧
    ((set_os_mode ((fun _ _ => Except.error ()) : BusW Unit)
        (DriverS.mk 72 (Config.mk 6)) OsMode.Interrupt).1 = Except.error (Error.I2C ()) ∧
      (set_os_mode ((fun _ _ => Except.error ()) : BusW Unit)
        (DriverS.mk 72 (Config.mk 6)) OsMode.Interrupt).2.config = Config.mk 6) :=
  ⟨⟨rfl, (claim_C6_config_commit Unit (fun _ _ => Except.ok ()) (DriverS.mk 72 (Config.mk 6))
      FaultQueue.q4 OsPolarity.ActiveHigh OsMode.Interrupt (Config.mk 5)
      (Error.I2C ())).1 rfl⟩,
   ⟨rfl, (claim_C6_config_commit Unit (fun _ _ => Except.error ()) (DriverS.mk 72 (Config.mk 6))
      FaultQueue.q4 OsPolarity.ActiveHigh OsMode.Interrupt (Config.mk 5)
      (Error.I2C ())).2.1 rfl⟩,
   ⟨rfl, (claim_C6_config_commit Unit (fun _ _ => Except.error ()) (DriverS.mk 72 (Config.mk 6))
      FaultQueue.q4 OsPolarity.ActiveHigh OsMode.Interrupt (Config.mk 5)
      (Error.I2C ())).2.2.2.1 rfl⟩,
   ⟨rfl, (claim_C6_config_commit Unit (fun _ _ => Except.error ()) (DriverS.mk 72 (Config.mk 6))
      FaultQueue.q4 OsPolarity.ActiveHigh OsMode.Interrupt (Config.mk 5)
      (Error.I2C ())).2.2.2.2.1 rfl⟩,
   ⟨rfl, (claim_C6_config_commit Unit (fun _ _ => Except.error ()) (DriverS.mk 72 (Config.mk 6))
      FaultQueue.q4 OsPolarity.ActiveHigh OsMode.Interrupt (Config.mk 5)
      (Error.I2C ())).2.2.2.2.2 rfl⟩⟩

/-- C7 (code-bug evidence): `set_sample_rate` takes a raw register byte,
performs no validation and always issues the `T_IDLE` write — its result is
never `InvalidInputData` — although `check_period_is_appropriate` (which the
driver never calls) rejects the out-of-range period 4000 and the non-multiple
1234 exactly as the claim demands; the register byte 40 is the encoding of
the period 4000 the claim requires to be rejected.  The validator also
accepts the period 0, which lies outside the claimed [100, 3100] range. -/
theorem claim_C7_sample_rate_unvalidated :
    (∀ (ε : Type) (bus : BusW ε) (s : DriverS) (byte : Nat),
      (set_sample_rate bus s byte).2 = [⟨s.address, [Register.T_IDLE, byte]⟩] ∧
      ((set_sample_rate bus s byte).1 = Except.ok () ∨
        ∃ e, (set_sample_rate bus s byte).1 = Except.error (Error.I2C e))) ∧
    convert_sample_rate_to_register 4000 = 40 ∧
    set_sample_rate ((fun _ _ => Except.ok ()) : BusW Unit) (DriverS.mk 72 (Config.mk 0)) 40 =
      (Except.ok (), [⟨72, [Register.T_IDLE, 40]⟩]) ∧
    check_period_is_appropriate Unit 4000 = Except.error Error.InvalidInputData ∧
    check_period_is_appropriate Unit 1234 = Except.error Error.InvalidInputData ∧
    check_period_is_appropriate Unit 3100 = Except.ok () ∧
    check_period_is_appropriate Unit 0 = Except.ok () := by
  refine ⟨?_, by decide, rfl, ?_, ?_, ?_, ?_⟩
  · intro ε bus s byte
    rw [set_sample_rate]
    cases hbus : bus s.address [Register.T_IDLE, byte] with
    | error e => exact ⟨rfl, Or.inr ⟨e, rfl⟩⟩
    | ok u => exact ⟨rfl, Or.inl rfl⟩
  · rw [check_period_is_appropriate, if_pos (Or.inl (by omega))]
  · rw [check_period_is_appropriate, if_pos (Or.inr (by omega))]
  · rw [check_period_is_appropriate, if_neg (by omega)]
  · rw [check_period_is_appropriate, if_neg (by omega)]

/-- A power-of-two flag has no bit at any other position. -/
lemma flag_testBit_ne (k i : Nat) (h : k ≠ i) : ((2 : Nat) ^ k).testBit i = false := by
  rw [Nat.testBit_two_pow]
  simp [h]

/-- `with_high` leaves every bit outside the mask unchanged. -/
lemma with_high_preserves (c : Config) (m i : Nat) (hmi : m.testBit i = false) :
    ((c.with_high m).bits.testBit i) = c.bits.testBit i := by
  rw [with_high_testBit, hmi]
  simp

/-- `with_low` leaves every bit outside a byte mask unchanged (for byte-sized
configurations). -/
lemma with_low_preserves (c : Config) (m i : Nat) (hm : m < 256) (hc : c.bits < 256)
    (hmi : m.testBit i = false) :
    ((c.with_low m).bits.testBit i) = c.bits.testBit i := by
  rw [with_low_testBit c m i hm, hmi]
  by_cases h : i < 8
  · simp [h]
  · have h8 : (2 : Nat) ^ 8 ≤ 2 ^ i := Nat.pow_le_pow_right (by omega) (by omega)
    have hcb : c.bits.testBit i = false := Nat.testBit_lt_two_pow (by omega)
    simp [h, hcb]

/-- `with_high` keeps the configuration inside a byte. -/
lemma with_high_lt (c : Config) (m : Nat) (hc : c.bits < 256) (hm : m < 256) :
    (c.with_high m).bits < 256 := by
  simp only [Config.with_high]
  exact Nat.or_lt_two_pow (show c.bits < 2 ^ 8 by omega) (show m < 2 ^ 8 by omega)

/-- `with_low` keeps the configuration inside a byte. -/
lemma with_low_lt (c : Config) (m : Nat) (hc : c.bits < 256) :
    (c.with_low m).bits < 256 := by
  have h : c.bits &&& u8_not m ≤ c.bits := Nat.and_le_left
  simp only [Config.with_low]
  omega

/-- C9: `with_high`/`with_low` set or clear exactly the masked bits and leave
all other bits of the configuration byte unchanged; consequently each facade
configuration setter alters only its designated bit field of the (cached)
configuration byte — shutdown is bit 0, mode is bit 1, polarity is bit 2, and
the fault queue occupies bits 3 and 4. -/
theorem claim_C9_config_bit_isolation :
    (∀ (c m i : Nat), c < 256 → m < 256 →
      ((Config.mk c).with_high m).bits &&& m = m ∧
      ((Config.mk c).with_low m).bits &&& m = 0 ∧
      (m.testBit i = false →
        (((Config.mk c).with_high m).bits.testBit i = Nat.testBit c i ∧
         ((Config.mk c).with_low m).bits.testBit i = Nat.testBit c i))) ∧
    (∀ (ε : Type) (bus : BusW ε) (s : DriverS) (fq : FaultQueue) (pol : OsPolarity)
      (md : OsMode) (i : Nat), s.config.bits < 256 →
      (i ≠ 0 →
        ((enable bus s).2.config.bits.testBit i = s.config.bits.testBit i ∧
         (disable bus s).2.config.bits.testBit i = s.config.bits.testBit i)) ∧
      (i ≠ 1 →
        (set_os_mode bus s md).2.config.bits.testBit i = s.config.bits.testBit i) ∧
      (i ≠ 2 →
        (set_os_polarity bus s pol).2.config.bits.testBit i = s.config.bits.testBit i) ∧
      (i ≠ 3 → i ≠ 4 →
        (set_fault_queue bus s fq).2.config.bits.testBit i = s.config.bits.testBit i)) := by
  constructor
  · intro c m i hc hm
    refine ⟨?_, ?_, fun hmi => ⟨with_high_preserves _ m i hmi,
      with_low_preserves _ m i hm hc hmi⟩⟩
    · apply Nat.eq_of_testBit_eq
      intro j
      rw [Nat.testBit_and, with_high_testBit]
      cases hcj : Nat.testBit c j <;> cases hmj : Nat.testBit m j <;> simp [hcj, hmj]
    · apply Nat.eq_of_testBit_eq
      intro j
      rw [Nat.testBit_and, with_low_testBit _ m j hm, Nat.zero_testBit]
      by_cases hj : j < 8 <;> cases hmj : Nat.testBit m j <;> simp [hj, hmj]
  · intro ε bus s fq pol md i hs
    have hSh : BitFlags.SHUTDOWN.testBit i = (2 ^ 0 : Nat).testBit i := rfl
    have hCo : BitFlags.COMP_INT.testBit i = (2 ^ 1 : Nat).testBit i := rfl
    have hPo : BitFlags.OS_POLARITY.testBit i = (2 ^ 2 : Nat).testBit i := rfl
    have hF0 : BitFlags.FAULT_QUEUE0.testBit i = (2 ^ 3 : Nat).testBit i := rfl
    have hF1 : BitFlags.FAULT_QUEUE1.testBit i = (2 ^ 4 : Nat).testBit i := rfl
    refine ⟨fun hi => ⟨?_, ?_⟩, fun hi => ?_, fun hi => ?_, fun h3 h4 => ?_⟩
    · rw [enable]
      apply write_config_preserves_bit
      exact with_low_preserves _ _ i (by decide) hs
        (hSh.trans (flag_testBit_ne 0 i (fun h => hi h.symm)))
    · rw [disable]
      apply write_config_preserves_bit
      exact with_high_preserves _ _ i
        (hSh.trans (flag_testBit_ne 0 i (fun h => hi h.symm)))
    · cases md <;> rw [set_os_mode] <;> apply write_config_preserves_bit
      · exact with_low_preserves _ _ i (by decide) hs
          (hCo.trans (flag_testBit_ne 1 i (fun h => hi h.symm)))
      · exact with_high_preserves _ _ i
          (hCo.trans (flag_testBit_ne 1 i (fun h => hi h.symm)))
    · cases pol <;> rw [set_os_polarity] <;> apply write_config_preserves_bit
      · exact with_low_preserves _ _ i (by decide) hs
          (hPo.trans (flag_testBit_ne 2 i (fun h => hi h.symm)))
      · exact with_high_preserves _ _ i
          (hPo.trans (flag_testBit_ne 2 i (fun h => hi h.symm)))
    · have hb0 : BitFlags.FAULT_QUEUE0.testBit i = false :=
        hF0.trans (flag_testBit_ne 3 i (fun h => h3 h.symm))
      have hb1 : BitFlags.FAULT_QUEUE1.testBit i = false :=
        hF1.trans (flag_testBit_ne 4 i (fun h => h4 h.symm))
      cases fq <;> rw [set_fault_queue] <;> apply write_config_preserves_bit
      · rw [with_low_preserves _ _ i (by decide) (with_low_lt _ _ hs) hb0]
        exact with_low_preserves _ _ i (by decide) hs hb1
      · rw [with_high_preserves _ _ i hb0]
        exact with_low_preserves _ _ i (by decide) hs hb1
      · rw [with_low_preserves _ _ i (by decide) (with_high_lt _ _ hs (by decide)) hb0]
        exact with_high_preserves _ _ i hb1
      · rw [with_high_preserves _ _ i hb0]
        exact with_high_preserves _ _ i hb1

/-- C9 witness: with mask `0b0001_1000` on the byte `0b0000_0110`, `with_high`
sets and `with_low` clears exactly the masked bits, and `set_fault_queue`
leaves bit 1 of the cached configuration `0b0000_0110` unchanged. -/
theorem claim_C9_witness :
    ((0b00000110 : Nat) < 256 ∧ (0b00011000 : Nat) < 256) ∧
    (((Config.mk 0b00000110).with_high 0b00011000).bits &&& 0b00011000 = 0b00011000 ∧
      ((Config.mk 0b00000110).with_low 0b00011000).bits &&& 0b00011000 = 0 ∧
      (Nat.testBit 0b00011000 1 = false →
        (((Config.mk 0b00000110).with_high 0b00011000).bits.testBit 1 =
            Nat.testBit 0b00000110 1 ∧
          ((Config.mk 0b00000110).with_low 0b00011000).bits.testBit 1 =
            Nat.testBit 0b00000110 1))) ∧
    ((1 : Nat) ≠ 3) ∧ ((1 : Nat) ≠ 4) ∧
    (set_fault_queue ((fun _ _ => Except.ok ()) : BusW Unit)
        (DriverS.mk 72 (Config.mk 0b00000110)) FaultQueue.q6).2.config.bits.testBit 1 =
      (DriverS.mk 72 (Config.mk 0b00000110)).config.bits.testBit 1 :=
  ⟨⟨by decide, by decide⟩,
   (claim_C9_config_bit_isolation.1 0b00000110 0b00011000 1 (by decide) (by decide)),
   by decide, by decide,
   ((claim_C9_config_bit_isolation.2 Unit (fun _ _ => Except.ok ())
      (DriverS.mk 72 (Config.mk 0b00000110)) FaultQueue.q6 OsPolarity.ActiveHigh
      OsMode.Interrupt 1 (by decide)).2.2.2 (by decide) (by decide))⟩

end Lm75Spec
